import Mathlib

/-!
# Operator console login (operatorapi/operator_login.go)

A shallow embedding of the login pipeline of the operator console:
`login`, `getAccountPolicy`, `getConsoleCredentials`, `getLoginResponse`,
`getLoginDetailsResponse`, `getLoginOauth2AuthResponse`, `newConsoleCredentials`
and `getLoginOperatorResponse`.

The Go functions call collaborators that live in other packages (the STS
credential object, the admin client, the policy parser, the session signer, the
identity-provider client).  They are fields of `Deps`.  Every collaborator that
does I/O receives the history of the calls made so far, so its answer may change
from one call to the next (a cached or expired credential, a network that
fails).  Each function threads that history and appends one `Call` per
collaborator call, together with the arguments it passed and the answer it got.

A Go result pair `(value, error)` whose value is only used after `err != nil`
has been ruled out is an `Except`.  A nil slice and an empty slice are both `[]`.
-/

namespace OperatorLogin

/-! ## Data model -/

/-- A Go `error` value, identified by its message. -/
structure GoError where
  msg : String
  deriving DecidableEq

/-- The struct `credentials.Value` of minio-go: the temporary credentials an
exchange returns. Only the three fields this file reads are kept. -/
structure Value where
  AccessKeyID : String
  SecretAccessKey : String
  SessionToken : String
  deriving DecidableEq

/-- A `*credentials.Credentials` object, as built by
`auth.GetConsoleCredentialsForOperator`; this file only passes it around. -/
structure Credentials where
  id : Nat
  deriving DecidableEq

/-- The struct `restapi.ConsoleCredentials`, with the three fields the composite
literals of this file set (`Creds` is the Go field `ConsoleCredentials`, which
cannot bear the name of its own struct here). A field a literal leaves out has
Go's zero value. -/
structure ConsoleCredentials where
  Creds : Credentials
  AccountAccessKey : String
  Actions : List String
  deriving DecidableEq

/-- Modelled from the spec: the method `GetAccountAccessKey` of
`restapi.ConsoleCredentials` is declared outside this file; it is the identity
reference of the session, "the account access key", that is the field
`AccountAccessKey`. -/
def ConsoleCredentials.GetAccountAccessKey (c : ConsoleCredentials) : String :=
  c.AccountAccessKey

/-- Modelled from the spec: the method `GetActions` of
`restapi.ConsoleCredentials` is declared outside this file; it is the capability
list stored in the credentials, that is the field `Actions`. -/
def ConsoleCredentials.GetActions (c : ConsoleCredentials) : List String :=
  c.Actions

/-- The struct `models.Principal`, with the fields set in `getConsoleCredentials`. -/
structure Principal where
  STSAccessKeyID : String
  STSSecretAccessKey : String
  STSSessionToken : String
  deriving DecidableEq

/-- The admin client returned by `restapi.NewMinioAdminClient`. -/
structure MinioAdmin where
  id : Nat
  deriving DecidableEq

/-- The struct `restapi.AdminClient`. -/
structure AdminClient where
  Client : MinioAdmin
  deriving DecidableEq

/-- The answer of `AccountInfo`; only the raw policy document is read. -/
structure AccountInfo where
  Policy : List UInt8
  deriving DecidableEq

/-- A parsed `iampolicy.Policy`; this file only passes it around. -/
structure Policy where
  id : Nat
  deriving DecidableEq

/-- A `context.Context`, as a term: the background context or a context derived
from a parent with a timeout in seconds. -/
inductive Context where
  | Background : Context
  | WithTimeout (parent : Context) (seconds : Nat) : Context
  deriving DecidableEq

/-- The oauth2 provider client returned by `oauth2.NewOauth2ProviderClient`. -/
structure Provider where
  id : Nat
  deriving DecidableEq

/-- The struct `auth.IdentityProvider`. -/
structure IdentityProvider where
  Client : Provider
  deriving DecidableEq

/-- Modelled from the spec: the login-strategy constants of package `models`
(`LoginDetailsLoginStrategyServiceDashAccount`, `LoginDetailsLoginStrategyRedirect`)
are declared outside this file; the spec gives the strategy as the enumeration
of the service-account strategy and the redirect strategy. -/
inductive LoginDetailsLoginStrategy where
  | ServiceDashAccount : LoginDetailsLoginStrategy
  | Redirect : LoginDetailsLoginStrategy
  deriving DecidableEq

/-- The struct `models.LoginDetails`. -/
structure LoginDetails where
  LoginStrategy : LoginDetailsLoginStrategy
  Redirect : String
  deriving DecidableEq

/-- The struct `models.LoginRequest`; both fields are required by the request
validation, so the dereferences `*lr.AccessKey` and `*lr.SecretKey` succeed. -/
structure LoginRequest where
  AccessKey : String
  SecretKey : String
  deriving DecidableEq

/-- The struct `models.LoginOperatorRequest`; `Jwt` is a required field. -/
structure LoginOperatorRequest where
  Jwt : String
  deriving DecidableEq

/-- The struct `models.LoginResponse`. -/
structure LoginResponse where
  SessionID : String
  deriving DecidableEq

/-- The struct `models.Error`, the error value handed to the HTTP layer. -/
structure ModelsError where
  Code : Int
  Message : String
  deriving DecidableEq

deriving instance DecidableEq for Except

/-- One call made by the pipeline to a collaborator, with the arguments passed
and the answer received. The arguments are those of the Go call: a call whose Go
signature has no `context.Context` parameter has no context here. -/
inductive Call where
  | WithTimeout (parent : Context) (seconds : Nat)
  | GetConsoleCredentialsForOperator (secretKey : String) (res : Except GoError Credentials)
  | Get (recv : ConsoleCredentials) (res : Except GoError Value)
  | NewMinioAdminClient (p : Principal) (res : Except GoError MinioAdmin)
  | AccountInfo (ctx : Context) (client : AdminClient) (res : Except GoError AccountInfo)
  | ParseConfig (raw : List UInt8) (res : Option Policy × Option GoError)
  | NewEncryptedTokenForClient (tokens : Value) (accountAccessKey : String)
      (actions : List String) (res : Except GoError String)
  | LogError (format : String) (err : GoError)
  | NewOauth2ProviderClient (ctx : Context) (res : Except GoError Provider)
  | GenerateLoginURL (recv : IdentityProvider) (res : String)
  deriving DecidableEq

/-- The history of collaborator calls, oldest first. -/
abbrev Trace := List Call

/-- The collaborators of the pipeline, none of which is defined in this file.
`errInvalidCredentials` and `prepareError` belong to package `operatorapi`,
`getK8sSAToken` reads the service-account token of the platform,
`IsIDPEnabled` is the process-wide identity-provider switch. The others take
the history of calls so far as first argument. `ParseConfig` answers with the Go
pair `(policy, error)` as it is, since `getAccountPolicy` returns that pair
unchanged. `GetActionsStringFromPolicy` is a pure translation. -/
structure Deps where
  errInvalidCredentials : GoError
  prepareError : List (Option GoError) → ModelsError
  getK8sSAToken : String
  IsIDPEnabled : Bool
  GetConsoleCredentialsForOperator : Trace → String → Except GoError Credentials
  Get : Trace → ConsoleCredentials → Except GoError Value
  NewMinioAdminClient : Trace → Principal → Except GoError MinioAdmin
  AccountInfo : Trace → Context → AdminClient → Except GoError AccountInfo
  ParseConfig : Trace → List UInt8 → Option Policy × Option GoError
  GetActionsStringFromPolicy : Policy → List String
  NewEncryptedTokenForClient :
    Trace → Value → String → List String → Except GoError String
  NewOauth2ProviderClient : Trace → Context → Except GoError Provider
  GenerateLoginURL : Trace → IdentityProvider → String

/-! ## The pipeline -/

/-- The function `login`: obtain the temporary credentials, then have the session
token signed for them; a signing failure is logged and replaced by
`errInvalidCredentials`. -/
def login (d : Deps) (credentials : ConsoleCredentials) (h : Trace) :
    Except GoError String × Trace :=
  let r := d.Get h credentials
  let h := h ++ [Call.Get credentials r]
  match r with
  | .error err => (.error err, h)
  | .ok tokens =>
    let s := d.NewEncryptedTokenForClient h tokens credentials.GetAccountAccessKey
      credentials.GetActions
    let h := h ++ [Call.NewEncryptedTokenForClient tokens credentials.GetAccountAccessKey
      credentials.GetActions s]
    match s with
    | .error err =>
      (.error d.errInvalidCredentials, h ++ [Call.LogError "error authenticating user: %v" err])
    | .ok token => (.ok token, h)

/-- The function `getAccountPolicy`: fetch the account info and parse its policy
document; the parser's pair is returned as it is. -/
def getAccountPolicy (d : Deps) (ctx : Context) (client : AdminClient) (h : Trace) :
    (Option Policy × Option GoError) × Trace :=
  let r := d.AccountInfo h ctx client
  let h := h ++ [Call.AccountInfo ctx client r]
  match r with
  | .error err => ((none, some err), h)
  | .ok accountInfo =>
    let p := d.ParseConfig h accountInfo.Policy
    (p, h ++ [Call.ParseConfig accountInfo.Policy p])

/-- The function `newConsoleCredentials`. -/
def newConsoleCredentials (d : Deps) (secretKey : String) (h : Trace) :
    Except GoError Credentials × Trace :=
  let r := d.GetConsoleCredentialsForOperator h secretKey
  let h := h ++ [Call.GetConsoleCredentialsForOperator secretKey r]
  match r with
  | .error err => (.error err, h)
  | .ok creds => (.ok creds, h)

/-- The function `getConsoleCredentials`. -/
def getConsoleCredentials (d : Deps) (ctx : Context) (accessKey secretKey : String)
    (h : Trace) : Except GoError ConsoleCredentials × Trace :=
  match newConsoleCredentials d secretKey h with
  | (.error err, h) => (.error err, h)
  | (.ok creds, h) =>
    let cCredentials : ConsoleCredentials := ⟨creds, accessKey, []⟩
    let r := d.Get h cCredentials
    let h := h ++ [Call.Get cCredentials r]
    match r with
    | .error err => (.error err, h)
    | .ok tokens =>
      let principal : Principal :=
        ⟨tokens.AccessKeyID, tokens.SecretAccessKey, tokens.SessionToken⟩
      let m := d.NewMinioAdminClient h principal
      let h := h ++ [Call.NewMinioAdminClient principal m]
      match m with
      | .error err => (.error err, h)
      | .ok mAdminClient =>
        let userAdminClient : AdminClient := ⟨mAdminClient⟩
        match getAccountPolicy d ctx userAdminClient h with
        | ((_, some err), h) => (.error err, h)
        | ((policy, none), h) =>
          let actions : List String :=
            match policy with
            | some p => d.GetActionsStringFromPolicy p
            | none => []
          (.ok ⟨cCredentials.Creds, cCredentials.AccountAccessKey, actions⟩, h)

/-- The call `prepareError(errInvalidCredentials, nil, err)`, the error of the
invalid-credentials class with underlying cause `err`. -/
def invalidCredentialsError (d : Deps) (err : GoError) : ModelsError :=
  d.prepareError [some d.errInvalidCredentials, none, some err]

/-- The function `getLoginResponse`, the direct entry point. The context built
by `context.WithTimeout(context.Background(), 20*time.Second)` is handed to
`getConsoleCredentials`; `login` takes no context. -/
def getLoginResponse (d : Deps) (lr : LoginRequest) (h : Trace) :
    Except ModelsError LoginResponse × Trace :=
  let ctx := Context.WithTimeout Context.Background 20
  let h := h ++ [Call.WithTimeout Context.Background 20]
  match getConsoleCredentials d ctx lr.AccessKey lr.SecretKey h with
  | (.error err, h) => (.error (d.prepareError [some d.errInvalidCredentials, none, some err]), h)
  | (.ok consolCreds, h) =>
    match login d consolCreds h with
    | (.error err, h) =>
      (.error (d.prepareError [some d.errInvalidCredentials, none, some err]), h)
    | (.ok sessionID, h) => (.ok ⟨sessionID⟩, h)

/-- The function `getLoginDetailsResponse`. The call
`oauth2.NewOauth2ProviderClient(ctx, nil, restapi.GetConsoleHTTPClient())` keeps
its context argument; its two other arguments are fixed. The deferred `cancel()`
has no effect on the value returned. -/
def getLoginDetailsResponse (d : Deps) (h : Trace) :
    Except ModelsError LoginDetails × Trace :=
  let ctx := Context.WithTimeout Context.Background 20
  let h := h ++ [Call.WithTimeout Context.Background 20]
  let loginStrategy := LoginDetailsLoginStrategy.ServiceDashAccount
  let redirectURL := ""
  if d.IsIDPEnabled then
    let loginStrategy := LoginDetailsLoginStrategy.Redirect
    let r := d.NewOauth2ProviderClient h ctx
    let h := h ++ [Call.NewOauth2ProviderClient ctx r]
    match r with
    | .error err => (.error (d.prepareError [some err]), h)
    | .ok oauth2Client =>
      let identityProvider : IdentityProvider := ⟨oauth2Client⟩
      let redirectURL := d.GenerateLoginURL h identityProvider
      let h := h ++ [Call.GenerateLoginURL identityProvider redirectURL]
      (.ok ⟨loginStrategy, redirectURL⟩, h)
  else
    (.ok ⟨loginStrategy, redirectURL⟩, h)

/-- The function `getLoginOauth2AuthResponse`, the identity-provider entry point. -/
def getLoginOauth2AuthResponse (d : Deps) (h : Trace) :
    Except ModelsError LoginResponse × Trace :=
  match newConsoleCredentials d d.getK8sSAToken h with
  | (.error err, h) => (.error (d.prepareError [some err]), h)
  | (.ok creds, h) =>
    let consoleCredentials : ConsoleCredentials := ⟨creds, "", []⟩
    match login d consoleCredentials h with
    | (.error err, h) =>
      (.error (d.prepareError [some d.errInvalidCredentials, none, some err]), h)
    | (.ok token, h) => (.ok ⟨token⟩, h)

/-- The function `getLoginOperatorResponse`, the operator-token entry point. -/
def getLoginOperatorResponse (d : Deps) (lmr : LoginOperatorRequest) (h : Trace) :
    Except ModelsError LoginResponse × Trace :=
  match newConsoleCredentials d lmr.Jwt h with
  | (.error err, h) => (.error (d.prepareError [some err]), h)
  | (.ok creds, h) =>
    let consoleCreds : ConsoleCredentials := ⟨creds, "", []⟩
    match login d consoleCreds h with
    | (.error err, h) =>
      (.error (d.prepareError [some d.errInvalidCredentials, none, some err]), h)
    | (.ok token, h) => (.ok ⟨token⟩, h)


/-! ## Reading a run -/

/-- The calls a run made: what the final history `t` holds beyond the history `h`
the run started from. -/
def eventsSince (h t : Trace) : Trace := t.drop h.length

/-- The answers of the exchange calls (`Get`), in order. -/
def exchangeResults (ev : Trace) : List (Except GoError Value) :=
  ev.filterMap fun c => match c with
    | Call.Get _ r => some r
    | _ => none

/-- The secrets handed to the exchange constructor, in order. -/
def constructorSecrets (ev : Trace) : List String :=
  ev.filterMap fun c => match c with
    | Call.GetConsoleCredentialsForOperator s _ => some s
    | _ => none

/-- The answers of the exchange constructor, in order. -/
def constructorResults (ev : Trace) : List (Except GoError Credentials) :=
  ev.filterMap fun c => match c with
    | Call.GetConsoleCredentialsForOperator _ r => some r
    | _ => none

/-- The answers of the policy parser, in order. -/
def policyResults (ev : Trace) : List (Option Policy × Option GoError) :=
  ev.filterMap fun c => match c with
    | Call.ParseConfig _ r => some r
    | _ => none

/-- The arguments handed to the session signer: temporary credentials, identity
and action list. -/
def signerCalls (ev : Trace) : List (Value × String × List String) :=
  ev.filterMap fun c => match c with
    | Call.NewEncryptedTokenForClient v a acts _ => some (v, a, acts)
    | _ => none

/-- The answers of the session signer, in order. -/
def signerResults (ev : Trace) : List (Except GoError String) :=
  ev.filterMap fun c => match c with
    | Call.NewEncryptedTokenForClient _ _ _ r => some r
    | _ => none

/-- The answers of `oauth2.NewOauth2ProviderClient`, in order. -/
def providerResults (ev : Trace) : List (Except GoError Provider) :=
  ev.filterMap fun c => match c with
    | Call.NewOauth2ProviderClient _ r => some r
    | _ => none

/-- The login URLs `GenerateLoginURL` returned, in order. -/
def loginURLs (ev : Trace) : List String :=
  ev.filterMap fun c => match c with
    | Call.GenerateLoginURL _ r => some r
    | _ => none

/-- The calls to the identity provider: building the provider client and
generating the login URL. -/
def idpCalls (ev : Trace) : Trace :=
  ev.filter fun c => match c with
    | Call.NewOauth2ProviderClient _ _ => true
    | Call.GenerateLoginURL _ _ => true
    | _ => false

/-- The deadlines a run established: the contexts built by `context.WithTimeout`. -/
def deadlines (ev : Trace) : List Context :=
  ev.filterMap fun c => match c with
    | Call.WithTimeout parent seconds => some (Context.WithTimeout parent seconds)
    | _ => none

/-- The context a call runs under: the `context.Context` argument of the Go
call, if its signature has one. -/
def Call.ctx : Call → Option Context
  | Call.AccountInfo ctx _ _ => some ctx
  | Call.NewOauth2ProviderClient ctx _ => some ctx
  | _ => none

/-- The steps the claims name: the exchange call, the account-info fetch and
the issuance of the session token. -/
def Call.isPipelineStep : Call → Bool
  | Call.Get _ _ => true
  | Call.AccountInfo _ _ _ => true
  | Call.NewEncryptedTokenForClient _ _ _ _ => true
  | _ => false

/-- The action list `getConsoleCredentials` stores for the parser's answer:
empty without a policy, the flattened policy otherwise. -/
def actionsOf (d : Deps) (policy : Option Policy) : List String :=
  match policy with
  | some p => d.GetActionsStringFromPolicy p
  | none => []

/-- Modelled from the spec: `GenerateLoginURL` of `auth.IdentityProvider` is
declared outside this file; the spec has a successful client/URL derivation
yield a non-empty redirect URL. -/
def GenerateLoginURLNonEmpty (d : Deps) : Prop :=
  ∀ (t : Trace) (ip : IdentityProvider), d.GenerateLoginURL t ip ≠ ""

/-! ## Sample environments -/

/-- A sample `prepareError`: the invalid-credentials error is reported as 401
with its own message, any other error as a generic 500. -/
def samplePrepareError (args : List (Option GoError)) : ModelsError :=
  match args with
  | some e :: _ =>
    if e = ⟨"invalid Login"⟩ then ⟨401, "invalid Login"⟩
    else ⟨500, "an error occurred, please try again"⟩
  | _ => ⟨500, "an error occurred, please try again"⟩

/-- The temporary credentials of the sample environments. -/
def sampleValue : Value := ⟨"STSAK", "STSSK", "STSTOKEN"⟩

/-- An environment in which every collaborator succeeds and the account has a
policy that flattens to one action. The identity provider is disabled. -/
def sampleDeps : Deps where
  errInvalidCredentials := ⟨"invalid Login"⟩
  prepareError := samplePrepareError
  getK8sSAToken := "sa-token"
  IsIDPEnabled := false
  GetConsoleCredentialsForOperator := fun _ _ => .ok ⟨1⟩
  Get := fun _ _ => .ok sampleValue
  NewMinioAdminClient := fun _ _ => .ok ⟨1⟩
  AccountInfo := fun _ _ _ => .ok ⟨[123, 125]⟩
  ParseConfig := fun _ _ => (some ⟨1⟩, none)
  GetActionsStringFromPolicy := fun _ => ["admin:*"]
  NewEncryptedTokenForClient := fun _ _ _ _ => .ok "session"
  NewOauth2ProviderClient := fun _ _ => .ok ⟨1⟩
  GenerateLoginURL := fun _ _ => "https://idp.example/authorize?state=abc"

/-- The sample environment with an exchange constructor that fails. -/
def constructorFailDeps : Deps :=
  { sampleDeps with GetConsoleCredentialsForOperator := fun _ _ => .error ⟨"no STS endpoint"⟩ }

/-- The sample environment with an exchange that fails. -/
def exchangeFailDeps : Deps :=
  { sampleDeps with Get := fun _ _ => .error ⟨"access denied"⟩ }

/-- The sample environment with an exchange that succeeds once and then fails:
the second `Get` of the direct flow, made by `login`, is the one that fails. -/
def secondExchangeFailDeps : Deps :=
  { sampleDeps with
    Get := fun t _ => if exchangeResults t = [] then .ok sampleValue
      else .error ⟨"expired"⟩ }

/-- The sample environment with a malformed policy document. -/
def badPolicyDeps : Deps :=
  { sampleDeps with ParseConfig := fun _ _ => (none, some ⟨"malformed policy"⟩) }

/-- The sample environment with an account that has no policy. -/
def noPolicyDeps : Deps :=
  { sampleDeps with ParseConfig := fun _ _ => (none, none) }

/-- The sample environment with a session signer that fails. -/
def signerFailDeps : Deps :=
  { sampleDeps with NewEncryptedTokenForClient := fun _ _ _ _ => .error ⟨"cipher failure"⟩ }

/-- The sample environment with the identity provider enabled. -/
def idpDeps : Deps :=
  { sampleDeps with IsIDPEnabled := true }

/-- The sample environment with the identity provider enabled and a provider
client that cannot be built. -/
def idpFailDeps : Deps :=
  { sampleDeps with
    IsIDPEnabled := true
    NewOauth2ProviderClient := fun _ _ => .error ⟨"idp unreachable"⟩ }

/-! ## The shape of a run -/

@[simp] theorem eventsSince_append (h l : Trace) : eventsSince h (h ++ l) = l := by
  simp [eventsSince]

theorem login_shape (d : Deps) (c : ConsoleCredentials) (h : Trace) :
    (∃ e, login d c h = (.error e, h ++ [Call.Get c (.error e)])) ∨
    (∃ v e, login d c h = (.error d.errInvalidCredentials,
        h ++ [Call.Get c (.ok v),
          Call.NewEncryptedTokenForClient v c.AccountAccessKey c.Actions (.error e),
          Call.LogError "error authenticating user: %v" e])) ∨
    (∃ v t, login d c h = (.ok t,
        h ++ [Call.Get c (.ok v),
          Call.NewEncryptedTokenForClient v c.AccountAccessKey c.Actions (.ok t)])) := by
  unfold login
  cases hg : d.Get h c with
  | error e => simp
  | ok v =>
    simp only [ConsoleCredentials.GetAccountAccessKey, ConsoleCredentials.GetActions]
    cases hs : d.NewEncryptedTokenForClient (h ++ [Call.Get c (.ok v)]) v
        c.AccountAccessKey c.Actions with
    | error e => simp
    | ok t => simp

theorem newConsoleCredentials_shape (d : Deps) (s : String) (h : Trace) :
    (∃ e, newConsoleCredentials d s h =
      (.error e, h ++ [Call.GetConsoleCredentialsForOperator s (.error e)])) ∨
    (∃ c, newConsoleCredentials d s h =
      (.ok c, h ++ [Call.GetConsoleCredentialsForOperator s (.ok c)])) := by
  unfold newConsoleCredentials
  cases d.GetConsoleCredentialsForOperator h s <;> simp

theorem getAccountPolicy_shape (d : Deps) (ctx : Context) (cl : AdminClient) (h : Trace) :
    (∃ e, getAccountPolicy d ctx cl h =
      ((none, some e), h ++ [Call.AccountInfo ctx cl (.error e)])) ∨
    (∃ ai p, getAccountPolicy d ctx cl h =
      (p, h ++ [Call.AccountInfo ctx cl (.ok ai), Call.ParseConfig ai.Policy p])) := by
  unfold getAccountPolicy
  cases d.AccountInfo h ctx cl <;> simp

theorem getConsoleCredentials_shape (d : Deps) (ctx : Context) (a s : String) (h : Trace) :
    (∃ e, getConsoleCredentials d ctx a s h =
      (.error e, h ++ [Call.GetConsoleCredentialsForOperator s (.error e)])) ∨
    (∃ c e, getConsoleCredentials d ctx a s h =
      (.error e, h ++ [Call.GetConsoleCredentialsForOperator s (.ok c),
        Call.Get ⟨c, a, []⟩ (.error e)])) ∨
    (∃ c v e, getConsoleCredentials d ctx a s h =
      (.error e, h ++ [Call.GetConsoleCredentialsForOperator s (.ok c),
        Call.Get ⟨c, a, []⟩ (.ok v),
        Call.NewMinioAdminClient ⟨v.AccessKeyID, v.SecretAccessKey, v.SessionToken⟩ (.error e)])) ∨
    (∃ c v m e, getConsoleCredentials d ctx a s h =
      (.error e, h ++ [Call.GetConsoleCredentialsForOperator s (.ok c),
        Call.Get ⟨c, a, []⟩ (.ok v),
        Call.NewMinioAdminClient ⟨v.AccessKeyID, v.SecretAccessKey, v.SessionToken⟩ (.ok m),
        Call.AccountInfo ctx ⟨m⟩ (.error e)])) ∨
    (∃ c v m ai po e, getConsoleCredentials d ctx a s h =
      (.error e, h ++ [Call.GetConsoleCredentialsForOperator s (.ok c),
        Call.Get ⟨c, a, []⟩ (.ok v),
        Call.NewMinioAdminClient ⟨v.AccessKeyID, v.SecretAccessKey, v.SessionToken⟩ (.ok m),
        Call.AccountInfo ctx ⟨m⟩ (.ok ai),
        Call.ParseConfig ai.Policy (po, some e)])) ∨
    (∃ c v m ai po, getConsoleCredentials d ctx a s h =
      (.ok ⟨c, a, actionsOf d po⟩, h ++ [Call.GetConsoleCredentialsForOperator s (.ok c),
        Call.Get ⟨c, a, []⟩ (.ok v),
        Call.NewMinioAdminClient ⟨v.AccessKeyID, v.SecretAccessKey, v.SessionToken⟩ (.ok m),
        Call.AccountInfo ctx ⟨m⟩ (.ok ai),
        Call.ParseConfig ai.Policy (po, none)])) := by
  unfold getConsoleCredentials
  rcases newConsoleCredentials_shape d s h with ⟨e, hn⟩ | ⟨c, hn⟩
  · simp [hn]
  · rw [hn]
    simp only []
    cases hg : d.Get (h ++ [Call.GetConsoleCredentialsForOperator s (.ok c)]) ⟨c, a, []⟩ with
    | error e => simp
    | ok v =>
      simp only []
      cases hm : d.NewMinioAdminClient
          (h ++ [Call.GetConsoleCredentialsForOperator s (.ok c)] ++ [Call.Get ⟨c, a, []⟩ (.ok v)])
          ⟨v.AccessKeyID, v.SecretAccessKey, v.SessionToken⟩ with
      | error e => simp
      | ok m =>
        simp only []
        rcases getAccountPolicy_shape d ctx ⟨m⟩
          (h ++ [Call.GetConsoleCredentialsForOperator s (.ok c)] ++ [Call.Get ⟨c, a, []⟩ (.ok v)]
            ++ [Call.NewMinioAdminClient ⟨v.AccessKeyID, v.SecretAccessKey, v.SessionToken⟩ (.ok m)])
          with ⟨e, hp⟩ | ⟨ai, p, hp⟩
        · rw [hp]; simp
        · rw [hp]
          rcases p with ⟨po, _ | e⟩
          · right; right; right; right; right
            exact ⟨c, v, m, ai, po, by simp [actionsOf]⟩
          · simp

/-- The eight ways a direct login can run: one per collaborator call that can
fail, and the successful run. -/
theorem getLoginResponse_shape (d : Deps) (lr : LoginRequest) (h : Trace) :
    (∃ e, getLoginResponse d lr h = (.error (invalidCredentialsError d e),
      h ++ [Call.WithTimeout Context.Background 20,
        Call.GetConsoleCredentialsForOperator lr.SecretKey (.error e)])) ∨
    (∃ c e, getLoginResponse d lr h = (.error (invalidCredentialsError d e),
      h ++ [Call.WithTimeout Context.Background 20,
        Call.GetConsoleCredentialsForOperator lr.SecretKey (.ok c),
        Call.Get ⟨c, lr.AccessKey, []⟩ (.error e)])) ∨
    (∃ c v e, getLoginResponse d lr h = (.error (invalidCredentialsError d e),
      h ++ [Call.WithTimeout Context.Background 20,
        Call.GetConsoleCredentialsForOperator lr.SecretKey (.ok c),
        Call.Get ⟨c, lr.AccessKey, []⟩ (.ok v),
        Call.NewMinioAdminClient ⟨v.AccessKeyID, v.SecretAccessKey, v.SessionToken⟩ (.error e)])) ∨
    (∃ c v m e, getLoginResponse d lr h = (.error (invalidCredentialsError d e),
      h ++ [Call.WithTimeout Context.Background 20,
        Call.GetConsoleCredentialsForOperator lr.SecretKey (.ok c),
        Call.Get ⟨c, lr.AccessKey, []⟩ (.ok v),
        Call.NewMinioAdminClient ⟨v.AccessKeyID, v.SecretAccessKey, v.SessionToken⟩ (.ok m),
        Call.AccountInfo (Context.WithTimeout Context.Background 20) ⟨m⟩ (.error e)])) ∨
    (∃ c v m ai po e, getLoginResponse d lr h = (.error (invalidCredentialsError d e),
      h ++ [Call.WithTimeout Context.Background 20,
        Call.GetConsoleCredentialsForOperator lr.SecretKey (.ok c),
        Call.Get ⟨c, lr.AccessKey, []⟩ (.ok v),
        Call.NewMinioAdminClient ⟨v.AccessKeyID, v.SecretAccessKey, v.SessionToken⟩ (.ok m),
        Call.AccountInfo (Context.WithTimeout Context.Background 20) ⟨m⟩ (.ok ai),
        Call.ParseConfig ai.Policy (po, some e)])) ∨
    (∃ c v m ai po e, getLoginResponse d lr h = (.error (invalidCredentialsError d e),
      h ++ [Call.WithTimeout Context.Background 20,
        Call.GetConsoleCredentialsForOperator lr.SecretKey (.ok c),
        Call.Get ⟨c, lr.AccessKey, []⟩ (.ok v),
        Call.NewMinioAdminClient ⟨v.AccessKeyID, v.SecretAccessKey, v.SessionToken⟩ (.ok m),
        Call.AccountInfo (Context.WithTimeout Context.Background 20) ⟨m⟩ (.ok ai),
        Call.ParseConfig ai.Policy (po, none),
        Call.Get ⟨c, lr.AccessKey, actionsOf d po⟩ (.error e)])) ∨
    (∃ c v m ai po w e, getLoginResponse d lr h =
      (.error (invalidCredentialsError d d.errInvalidCredentials),
      h ++ [Call.WithTimeout Context.Background 20,
        Call.GetConsoleCredentialsForOperator lr.SecretKey (.ok c),
        Call.Get ⟨c, lr.AccessKey, []⟩ (.ok v),
        Call.NewMinioAdminClient ⟨v.AccessKeyID, v.SecretAccessKey, v.SessionToken⟩ (.ok m),
        Call.AccountInfo (Context.WithTimeout Context.Background 20) ⟨m⟩ (.ok ai),
        Call.ParseConfig ai.Policy (po, none),
        Call.Get ⟨c, lr.AccessKey, actionsOf d po⟩ (.ok w),
        Call.NewEncryptedTokenForClient w lr.AccessKey (actionsOf d po) (.error e),
        Call.LogError "error authenticating user: %v" e])) ∨
    (∃ c v m ai po w t, getLoginResponse d lr h = (.ok ⟨t⟩,
      h ++ [Call.WithTimeout Context.Background 20,
        Call.GetConsoleCredentialsForOperator lr.SecretKey (.ok c),
        Call.Get ⟨c, lr.AccessKey, []⟩ (.ok v),
        Call.NewMinioAdminClient ⟨v.AccessKeyID, v.SecretAccessKey, v.SessionToken⟩ (.ok m),
        Call.AccountInfo (Context.WithTimeout Context.Background 20) ⟨m⟩ (.ok ai),
        Call.ParseConfig ai.Policy (po, none),
        Call.Get ⟨c, lr.AccessKey, actionsOf d po⟩ (.ok w),
        Call.NewEncryptedTokenForClient w lr.AccessKey (actionsOf d po) (.ok t)])) := by
  unfold getLoginResponse
  simp only []
  rcases getConsoleCredentials_shape d (Context.WithTimeout Context.Background 20)
      lr.AccessKey lr.SecretKey (h ++ [Call.WithTimeout Context.Background 20]) with
    ⟨e, hr⟩ | ⟨c, e, hr⟩ | ⟨c, v, e, hr⟩ | ⟨c, v, m, e, hr⟩ | ⟨c, v, m, ai, po, e, hr⟩ |
    ⟨c, v, m, ai, po, hr⟩
  · rw [hr]
    left
    exact ⟨e, by simp [invalidCredentialsError]⟩
  · rw [hr]
    right; left
    exact ⟨c, e, by simp [invalidCredentialsError]⟩
  · rw [hr]
    right; right; left
    exact ⟨c, v, e, by simp [invalidCredentialsError]⟩
  · rw [hr]
    right; right; right; left
    exact ⟨c, v, m, e, by simp [invalidCredentialsError]⟩
  · rw [hr]
    right; right; right; right; left
    exact ⟨c, v, m, ai, po, e, by simp [invalidCredentialsError]⟩
  · rw [hr]
    simp only []
    rcases login_shape d ⟨c, lr.AccessKey, actionsOf d po⟩
        (h ++ [Call.WithTimeout Context.Background 20] ++
          [Call.GetConsoleCredentialsForOperator lr.SecretKey (.ok c),
            Call.Get ⟨c, lr.AccessKey, []⟩ (.ok v),
            Call.NewMinioAdminClient ⟨v.AccessKeyID, v.SecretAccessKey, v.SessionToken⟩ (.ok m),
            Call.AccountInfo (Context.WithTimeout Context.Background 20) ⟨m⟩ (.ok ai),
            Call.ParseConfig ai.Policy (po, none)]) with
      ⟨e, hl⟩ | ⟨w, e, hl⟩ | ⟨w, t, hl⟩
    · rw [hl]
      right; right; right; right; right; left
      exact ⟨c, v, m, ai, po, e, by simp [invalidCredentialsError]⟩
    · rw [hl]
      right; right; right; right; right; right; left
      exact ⟨c, v, m, ai, po, w, e, by simp [invalidCredentialsError]⟩
    · rw [hl]
      right; right; right; right; right; right; right
      exact ⟨c, v, m, ai, po, w, t, by simp⟩

theorem getLoginOperatorResponse_shape (d : Deps) (lmr : LoginOperatorRequest) (h : Trace) :
    (∃ e, getLoginOperatorResponse d lmr h = (.error (d.prepareError [some e]),
      h ++ [Call.GetConsoleCredentialsForOperator lmr.Jwt (.error e)])) ∨
    (∃ c e, getLoginOperatorResponse d lmr h = (.error (invalidCredentialsError d e),
      h ++ [Call.GetConsoleCredentialsForOperator lmr.Jwt (.ok c),
        Call.Get ⟨c, "", []⟩ (.error e)])) ∨
    (∃ c w e, getLoginOperatorResponse d lmr h =
      (.error (invalidCredentialsError d d.errInvalidCredentials),
      h ++ [Call.GetConsoleCredentialsForOperator lmr.Jwt (.ok c),
        Call.Get ⟨c, "", []⟩ (.ok w),
        Call.NewEncryptedTokenForClient w "" [] (.error e),
        Call.LogError "error authenticating user: %v" e])) ∨
    (∃ c w t, getLoginOperatorResponse d lmr h = (.ok ⟨t⟩,
      h ++ [Call.GetConsoleCredentialsForOperator lmr.Jwt (.ok c),
        Call.Get ⟨c, "", []⟩ (.ok w),
        Call.NewEncryptedTokenForClient w "" [] (.ok t)])) := by
  unfold getLoginOperatorResponse
  rcases newConsoleCredentials_shape d lmr.Jwt h with ⟨e, hn⟩ | ⟨c, hn⟩
  · rw [hn]
    left
    exact ⟨e, by simp⟩
  · rw [hn]
    simp only []
    rcases login_shape d ⟨c, "", []⟩
        (h ++ [Call.GetConsoleCredentialsForOperator lmr.Jwt (.ok c)]) with
      ⟨e, hl⟩ | ⟨w, e, hl⟩ | ⟨w, t, hl⟩
    · rw [hl]
      right; left
      exact ⟨c, e, by simp [invalidCredentialsError]⟩
    · rw [hl]
      right; right; left
      exact ⟨c, w, e, by simp [invalidCredentialsError]⟩
    · rw [hl]
      right; right; right
      exact ⟨c, w, t, by simp⟩

theorem getLoginOauth2AuthResponse_shape (d : Deps) (h : Trace) :
    (∃ e, getLoginOauth2AuthResponse d h = (.error (d.prepareError [some e]),
      h ++ [Call.GetConsoleCredentialsForOperator d.getK8sSAToken (.error e)])) ∨
    (∃ c e, getLoginOauth2AuthResponse d h = (.error (invalidCredentialsError d e),
      h ++ [Call.GetConsoleCredentialsForOperator d.getK8sSAToken (.ok c),
        Call.Get ⟨c, "", []⟩ (.error e)])) ∨
    (∃ c w e, getLoginOauth2AuthResponse d h =
      (.error (invalidCredentialsError d d.errInvalidCredentials),
      h ++ [Call.GetConsoleCredentialsForOperator d.getK8sSAToken (.ok c),
        Call.Get ⟨c, "", []⟩ (.ok w),
        Call.NewEncryptedTokenForClient w "" [] (.error e),
        Call.LogError "error authenticating user: %v" e])) ∨
    (∃ c w t, getLoginOauth2AuthResponse d h = (.ok ⟨t⟩,
      h ++ [Call.GetConsoleCredentialsForOperator d.getK8sSAToken (.ok c),
        Call.Get ⟨c, "", []⟩ (.ok w),
        Call.NewEncryptedTokenForClient w "" [] (.ok t)])) := by
  unfold getLoginOauth2AuthResponse
  rcases newConsoleCredentials_shape d d.getK8sSAToken h with ⟨e, hn⟩ | ⟨c, hn⟩
  · rw [hn]
    left
    exact ⟨e, by simp⟩
  · rw [hn]
    simp only []
    rcases login_shape d ⟨c, "", []⟩
        (h ++ [Call.GetConsoleCredentialsForOperator d.getK8sSAToken (.ok c)]) with
      ⟨e, hl⟩ | ⟨w, e, hl⟩ | ⟨w, t, hl⟩
    · rw [hl]
      right; left
      exact ⟨c, e, by simp [invalidCredentialsError]⟩
    · rw [hl]
      right; right; left
      exact ⟨c, w, e, by simp [invalidCredentialsError]⟩
    · rw [hl]
      right; right; right
      exact ⟨c, w, t, by simp⟩

/-- Claim C3: on each of the three entry points, if an exchange call `Get` of
the run fails with `e`, whatever `e` is, the entry point returns no session and
exactly the invalid-credentials error `prepareError(errInvalidCredentials, nil, e)`. -/
theorem exchange_failure_is_invalid_credentials (d : Deps) (h : Trace) (e : GoError) :
    (∀ lr : LoginRequest,
      Except.error e ∈ exchangeResults (eventsSince h (getLoginResponse d lr h).2) →
      (getLoginResponse d lr h).1 = .error (invalidCredentialsError d e)) ∧
    (∀ lmr : LoginOperatorRequest,
      Except.error e ∈ exchangeResults (eventsSince h (getLoginOperatorResponse d lmr h).2) →
      (getLoginOperatorResponse d lmr h).1 = .error (invalidCredentialsError d e)) ∧
    (Except.error e ∈ exchangeResults (eventsSince h (getLoginOauth2AuthResponse d h).2) →
      (getLoginOauth2AuthResponse d h).1 = .error (invalidCredentialsError d e)) := by
  refine ⟨?_, ?_, ?_⟩
  · intro lr hx
    rcases getLoginResponse_shape d lr h with
      ⟨_, hr⟩ | ⟨_, _, hr⟩ | ⟨_, _, _, hr⟩ | ⟨_, _, _, _, hr⟩ | ⟨_, _, _, _, _, _, hr⟩ |
      ⟨_, _, _, _, _, _, hr⟩ | ⟨_, _, _, _, _, _, _, hr⟩ | ⟨_, _, _, _, _, _, _, hr⟩
    all_goals (rw [hr] at hx ⊢; simp [exchangeResults] at hx ⊢)
    all_goals simp [hx]
  · intro lmr hx
    rcases getLoginOperatorResponse_shape d lmr h with
      ⟨_, hr⟩ | ⟨_, _, hr⟩ | ⟨_, _, _, hr⟩ | ⟨_, _, _, hr⟩
    all_goals (rw [hr] at hx ⊢; simp [exchangeResults] at hx ⊢)
    all_goals simp [hx]
  · intro hx
    rcases getLoginOauth2AuthResponse_shape d h with
      ⟨_, hr⟩ | ⟨_, _, hr⟩ | ⟨_, _, _, hr⟩ | ⟨_, _, _, hr⟩
    all_goals (rw [hr] at hx ⊢; simp [exchangeResults] at hx ⊢)
    all_goals simp [hx]

/-- Witness for claim C3: the exchange fails in `exchangeFailDeps` on all three
entry points, and in `secondExchangeFailDeps` at the second exchange call of the
direct flow. -/
theorem exchange_failure_is_invalid_credentials_witness :
    (Except.error ⟨"access denied"⟩ ∈
        exchangeResults (eventsSince [] (getLoginResponse exchangeFailDeps ⟨"AK", "SK"⟩ []).2) ∧
      (getLoginResponse exchangeFailDeps ⟨"AK", "SK"⟩ []).1 =
        .error (invalidCredentialsError exchangeFailDeps ⟨"access denied"⟩)) ∧
    (Except.error ⟨"expired"⟩ ∈
        exchangeResults
          (eventsSince [] (getLoginResponse secondExchangeFailDeps ⟨"AK", "SK"⟩ []).2) ∧
      (getLoginResponse secondExchangeFailDeps ⟨"AK", "SK"⟩ []).1 =
        .error (invalidCredentialsError secondExchangeFailDeps ⟨"expired"⟩)) ∧
    (Except.error ⟨"access denied"⟩ ∈
        exchangeResults
          (eventsSince [] (getLoginOperatorResponse exchangeFailDeps ⟨"jwt"⟩ []).2) ∧
      (getLoginOperatorResponse exchangeFailDeps ⟨"jwt"⟩ []).1 =
        .error (invalidCredentialsError exchangeFailDeps ⟨"access denied"⟩)) ∧
    (Except.error ⟨"access denied"⟩ ∈
        exchangeResults (eventsSince [] (getLoginOauth2AuthResponse exchangeFailDeps []).2) ∧
      (getLoginOauth2AuthResponse exchangeFailDeps []).1 =
        .error (invalidCredentialsError exchangeFailDeps ⟨"access denied"⟩)) :=
  ⟨⟨by decide,
      (exchange_failure_is_invalid_credentials exchangeFailDeps [] ⟨"access denied"⟩).1
        ⟨"AK", "SK"⟩ (by decide)⟩,
    ⟨by decide,
      (exchange_failure_is_invalid_credentials secondExchangeFailDeps [] ⟨"expired"⟩).1
        ⟨"AK", "SK"⟩ (by decide)⟩,
    ⟨by decide,
      (exchange_failure_is_invalid_credentials exchangeFailDeps [] ⟨"access denied"⟩).2.1
        ⟨"jwt"⟩ (by decide)⟩,
    ⟨by decide,
      (exchange_failure_is_invalid_credentials exchangeFailDeps [] ⟨"access denied"⟩).2.2
        (by decide)⟩⟩

/-- Counterexample to claim C1 as stated: in `sampleDeps` the account has a
well-formed policy that flattens to `["admin:*"]`, the operator-token login and
the identity-provider login succeed, and both hand the empty action list to the
session signer. -/
theorem token_logins_ignore_policy :
    (getAccountPolicy sampleDeps Context.Background ⟨⟨1⟩⟩ []).1 = (some ⟨1⟩, none) ∧
    sampleDeps.GetActionsStringFromPolicy ⟨1⟩ = ["admin:*"] ∧
    (getLoginOperatorResponse sampleDeps ⟨"jwt"⟩ []).1 = .ok ⟨"session"⟩ ∧
    exchangeResults (eventsSince [] (getLoginOperatorResponse sampleDeps ⟨"jwt"⟩ []).2) =
      [.ok sampleValue] ∧
    signerCalls (eventsSince [] (getLoginOperatorResponse sampleDeps ⟨"jwt"⟩ []).2) =
      [(sampleValue, "", [])] ∧
    (getLoginOauth2AuthResponse sampleDeps []).1 = .ok ⟨"session"⟩ ∧
    exchangeResults (eventsSince [] (getLoginOauth2AuthResponse sampleDeps []).2) =
      [.ok sampleValue] ∧
    signerCalls (eventsSince [] (getLoginOauth2AuthResponse sampleDeps []).2) =
      [(sampleValue, "", [])] := by
  decide

/-- Claim C1, amended: in the direct login, when both exchange calls succeed
(the one of `getConsoleCredentials` with `v`, the one of `login` with `w`) and
the parser returns a policy `p` without error, the session signer is called once,
with the action list `GetActionsStringFromPolicy p`. In the operator-token login
and the identity-provider login, when the exchange succeeds the signer is called
once with the empty action list. -/
theorem signer_actions_by_entry_point (d : Deps) (h : Trace) :
    (∀ (lr : LoginRequest) (v w : Value) (p : Policy),
      exchangeResults (eventsSince h (getLoginResponse d lr h).2) = [.ok v, .ok w] →
      policyResults (eventsSince h (getLoginResponse d lr h).2) = [(some p, none)] →
      signerCalls (eventsSince h (getLoginResponse d lr h).2) =
        [(w, lr.AccessKey, d.GetActionsStringFromPolicy p)]) ∧
    (∀ (lmr : LoginOperatorRequest) (w : Value),
      exchangeResults (eventsSince h (getLoginOperatorResponse d lmr h).2) = [.ok w] →
      signerCalls (eventsSince h (getLoginOperatorResponse d lmr h).2) = [(w, "", [])]) ∧
    (∀ w : Value,
      exchangeResults (eventsSince h (getLoginOauth2AuthResponse d h).2) = [.ok w] →
      signerCalls (eventsSince h (getLoginOauth2AuthResponse d h).2) = [(w, "", [])]) := by
  refine ⟨?_, ?_, ?_⟩
  · intro lr v w p hx hp
    rcases getLoginResponse_shape d lr h with
      ⟨_, hr⟩ | ⟨_, _, hr⟩ | ⟨_, _, _, hr⟩ | ⟨_, _, _, _, hr⟩ | ⟨_, _, _, _, _, _, hr⟩ |
      ⟨_, _, _, _, _, _, hr⟩ | ⟨_, _, _, _, _, _, _, hr⟩ | ⟨_, _, _, _, _, _, _, hr⟩
    all_goals
      rw [hr] at hx hp ⊢
      simp [exchangeResults, policyResults, signerCalls, actionsOf] at hx hp ⊢
    all_goals simp [hx, hp]
  · intro lmr w hx
    rcases getLoginOperatorResponse_shape d lmr h with
      ⟨_, hr⟩ | ⟨_, _, hr⟩ | ⟨_, _, _, hr⟩ | ⟨_, _, _, hr⟩
    all_goals
      rw [hr] at hx ⊢
      simp [exchangeResults, signerCalls] at hx ⊢
    all_goals simp [hx]
  · intro w hx
    rcases getLoginOauth2AuthResponse_shape d h with
      ⟨_, hr⟩ | ⟨_, _, hr⟩ | ⟨_, _, _, hr⟩ | ⟨_, _, _, hr⟩
    all_goals
      rw [hr] at hx ⊢
      simp [exchangeResults, signerCalls] at hx ⊢
    all_goals simp [hx]

/-- Witness for claim C1, amended, in `sampleDeps`. -/
theorem signer_actions_by_entry_point_witness :
    (exchangeResults (eventsSince [] (getLoginResponse sampleDeps ⟨"AK", "SK"⟩ []).2) =
        [.ok sampleValue, .ok sampleValue] ∧
      policyResults (eventsSince [] (getLoginResponse sampleDeps ⟨"AK", "SK"⟩ []).2) =
        [(some ⟨1⟩, none)] ∧
      signerCalls (eventsSince [] (getLoginResponse sampleDeps ⟨"AK", "SK"⟩ []).2) =
        [(sampleValue, "AK", sampleDeps.GetActionsStringFromPolicy ⟨1⟩)]) ∧
    (exchangeResults (eventsSince [] (getLoginOperatorResponse sampleDeps ⟨"jwt"⟩ []).2) =
        [.ok sampleValue] ∧
      signerCalls (eventsSince [] (getLoginOperatorResponse sampleDeps ⟨"jwt"⟩ []).2) =
        [(sampleValue, "", [])]) ∧
    (exchangeResults (eventsSince [] (getLoginOauth2AuthResponse sampleDeps []).2) =
        [.ok sampleValue] ∧
      signerCalls (eventsSince [] (getLoginOauth2AuthResponse sampleDeps []).2) =
        [(sampleValue, "", [])]) :=
  ⟨⟨by decide, by decide,
      (signer_actions_by_entry_point sampleDeps []).1 ⟨"AK", "SK"⟩ sampleValue sampleValue ⟨1⟩
        (by decide) (by decide)⟩,
    ⟨by decide,
      (signer_actions_by_entry_point sampleDeps []).2.1 ⟨"jwt"⟩ sampleValue (by decide)⟩,
    ⟨by decide, (signer_actions_by_entry_point sampleDeps []).2.2 sampleValue (by decide)⟩⟩

/-- Counterexample to claim C2 as stated: in `badPolicyDeps` the parser fails on
the policy document, and `getLoginResponse` returns the error built from
`errInvalidCredentials`, the very `models.Error` it returns in
`exchangeFailDeps`, where the exchange fails. -/
theorem parse_failure_is_not_distinct :
    policyResults (eventsSince [] (getLoginResponse badPolicyDeps ⟨"AK", "SK"⟩ []).2) =
      [(none, some ⟨"malformed policy"⟩)] ∧
    (getLoginResponse badPolicyDeps ⟨"AK", "SK"⟩ []).1 =
      .error (badPolicyDeps.prepareError
        [some badPolicyDeps.errInvalidCredentials, none, some ⟨"malformed policy"⟩]) ∧
    exchangeResults (eventsSince [] (getLoginResponse exchangeFailDeps ⟨"AK", "SK"⟩ []).2) =
      [.error ⟨"access denied"⟩] ∧
    (getLoginResponse badPolicyDeps ⟨"AK", "SK"⟩ []).1 =
      (getLoginResponse exchangeFailDeps ⟨"AK", "SK"⟩ []).1 := by
  decide

/-- Claim C2, amended: if the policy parser fails with `e` in a direct login,
`getLoginResponse` returns no session and the invalid-credentials error
`prepareError(errInvalidCredentials, nil, e)`, the class an exchange failure
gets; the parse error is only the underlying cause. -/
theorem parse_failure_is_invalid_credentials (d : Deps) (lr : LoginRequest) (h : Trace)
    (po : Option Policy) (e : GoError)
    (hp : (po, some e) ∈ policyResults (eventsSince h (getLoginResponse d lr h).2)) :
    (getLoginResponse d lr h).1 = .error (invalidCredentialsError d e) := by
  rcases getLoginResponse_shape d lr h with
    ⟨_, hr⟩ | ⟨_, _, hr⟩ | ⟨_, _, _, hr⟩ | ⟨_, _, _, _, hr⟩ | ⟨_, _, _, _, _, _, hr⟩ |
    ⟨_, _, _, _, _, _, hr⟩ | ⟨_, _, _, _, _, _, _, hr⟩ | ⟨_, _, _, _, _, _, _, hr⟩
  all_goals
    rw [hr] at hp ⊢
    simp [policyResults] at hp ⊢
  all_goals simp [hp]

/-- Witness for claim C2, amended, in `badPolicyDeps`. -/
theorem parse_failure_is_invalid_credentials_witness :
    (none, some ⟨"malformed policy"⟩) ∈
        policyResults (eventsSince [] (getLoginResponse badPolicyDeps ⟨"AK", "SK"⟩ []).2) ∧
      (getLoginResponse badPolicyDeps ⟨"AK", "SK"⟩ []).1 =
        .error (invalidCredentialsError badPolicyDeps ⟨"malformed policy"⟩) :=
  ⟨by decide,
    parse_failure_is_invalid_credentials badPolicyDeps ⟨"AK", "SK"⟩ [] none
      ⟨"malformed policy"⟩ (by decide)⟩

/-- Counterexample to claim C4 as stated: in `constructorFailDeps` the exchange
constructor fails with a raw error; the operator-token login and the
identity-provider login hand that raw error to `prepareError` as the reported
error, and the result is not the invalid-credentials error. -/
theorem token_logins_report_raw_constructor_error :
    constructorResults
        (eventsSince [] (getLoginOperatorResponse constructorFailDeps ⟨"jwt"⟩ []).2) =
      [.error ⟨"no STS endpoint"⟩] ∧
    (getLoginOperatorResponse constructorFailDeps ⟨"jwt"⟩ []).1 =
      .error (constructorFailDeps.prepareError [some ⟨"no STS endpoint"⟩]) ∧
    (getLoginOperatorResponse constructorFailDeps ⟨"jwt"⟩ []).1 ≠
      .error (invalidCredentialsError constructorFailDeps ⟨"no STS endpoint"⟩) ∧
    constructorResults (eventsSince [] (getLoginOauth2AuthResponse constructorFailDeps []).2) =
      [.error ⟨"no STS endpoint"⟩] ∧
    (getLoginOauth2AuthResponse constructorFailDeps []).1 =
      .error (constructorFailDeps.prepareError [some ⟨"no STS endpoint"⟩]) ∧
    (getLoginOauth2AuthResponse constructorFailDeps []).1 ≠
      .error (invalidCredentialsError constructorFailDeps ⟨"no STS endpoint"⟩) := by
  decide

/-- Claim C4, amended: if the exchange constructor fails with `e`, the direct
login returns the invalid-credentials error `prepareError(errInvalidCredentials,
nil, e)`, while the operator-token login and the identity-provider login return
`prepareError(e)`, with `e` itself as the reported error. No entry point returns
a session. -/
theorem constructor_failure_by_entry_point (d : Deps) (h : Trace) (e : GoError) :
    (∀ lr : LoginRequest,
      Except.error e ∈ constructorResults (eventsSince h (getLoginResponse d lr h).2) →
      (getLoginResponse d lr h).1 = .error (invalidCredentialsError d e)) ∧
    (∀ lmr : LoginOperatorRequest,
      Except.error e ∈
        constructorResults (eventsSince h (getLoginOperatorResponse d lmr h).2) →
      (getLoginOperatorResponse d lmr h).1 = .error (d.prepareError [some e])) ∧
    (Except.error e ∈ constructorResults (eventsSince h (getLoginOauth2AuthResponse d h).2) →
      (getLoginOauth2AuthResponse d h).1 = .error (d.prepareError [some e])) := by
  refine ⟨?_, ?_, ?_⟩
  · intro lr hx
    rcases getLoginResponse_shape d lr h with
      ⟨_, hr⟩ | ⟨_, _, hr⟩ | ⟨_, _, _, hr⟩ | ⟨_, _, _, _, hr⟩ | ⟨_, _, _, _, _, _, hr⟩ |
      ⟨_, _, _, _, _, _, hr⟩ | ⟨_, _, _, _, _, _, _, hr⟩ | ⟨_, _, _, _, _, _, _, hr⟩
    all_goals
      rw [hr] at hx ⊢
      simp [constructorResults] at hx ⊢
    all_goals simp [hx]
  · intro lmr hx
    rcases getLoginOperatorResponse_shape d lmr h with
      ⟨_, hr⟩ | ⟨_, _, hr⟩ | ⟨_, _, _, hr⟩ | ⟨_, _, _, hr⟩
    all_goals
      rw [hr] at hx ⊢
      simp [constructorResults] at hx ⊢
    all_goals simp [hx]
  · intro hx
    rcases getLoginOauth2AuthResponse_shape d h with
      ⟨_, hr⟩ | ⟨_, _, hr⟩ | ⟨_, _, _, hr⟩ | ⟨_, _, _, hr⟩
    all_goals
      rw [hr] at hx ⊢
      simp [constructorResults] at hx ⊢
    all_goals simp [hx]

/-- Witness for claim C4, amended, in `constructorFailDeps`. -/
theorem constructor_failure_by_entry_point_witness :
    (Except.error ⟨"no STS endpoint"⟩ ∈
        constructorResults
          (eventsSince [] (getLoginResponse constructorFailDeps ⟨"AK", "SK"⟩ []).2) ∧
      (getLoginResponse constructorFailDeps ⟨"AK", "SK"⟩ []).1 =
        .error (invalidCredentialsError constructorFailDeps ⟨"no STS endpoint"⟩)) ∧
    (Except.error ⟨"no STS endpoint"⟩ ∈
        constructorResults
          (eventsSince [] (getLoginOperatorResponse constructorFailDeps ⟨"jwt"⟩ []).2) ∧
      (getLoginOperatorResponse constructorFailDeps ⟨"jwt"⟩ []).1 =
        .error (constructorFailDeps.prepareError [some ⟨"no STS endpoint"⟩])) ∧
    (Except.error ⟨"no STS endpoint"⟩ ∈
        constructorResults (eventsSince [] (getLoginOauth2AuthResponse constructorFailDeps []).2) ∧
      (getLoginOauth2AuthResponse constructorFailDeps []).1 =
        .error (constructorFailDeps.prepareError [some ⟨"no STS endpoint"⟩])) :=
  ⟨⟨by decide,
      (constructor_failure_by_entry_point constructorFailDeps [] ⟨"no STS endpoint"⟩).1
        ⟨"AK", "SK"⟩ (by decide)⟩,
    ⟨by decide,
      (constructor_failure_by_entry_point constructorFailDeps [] ⟨"no STS endpoint"⟩).2.1
        ⟨"jwt"⟩ (by decide)⟩,
    ⟨by decide,
      (constructor_failure_by_entry_point constructorFailDeps [] ⟨"no STS endpoint"⟩).2.2
        (by decide)⟩⟩

/-- Claim C5: on each entry point, if the exchange and the signing succeed and
the account has no policy (in the direct login the parser returns neither a
policy nor an error; the two token logins fetch no policy), the call returns a
session and the action list handed to the session signer is empty. -/
theorem no_policy_gives_empty_actions (d : Deps) (h : Trace) :
    (∀ (lr : LoginRequest) (v w : Value),
      exchangeResults (eventsSince h (getLoginResponse d lr h).2) = [.ok v, .ok w] →
      policyResults (eventsSince h (getLoginResponse d lr h).2) = [(none, none)] →
      (∀ e, Except.error e ∉ signerResults (eventsSince h (getLoginResponse d lr h).2)) →
      ∃ t, (getLoginResponse d lr h).1 = .ok ⟨t⟩ ∧
        signerCalls (eventsSince h (getLoginResponse d lr h).2) = [(w, lr.AccessKey, [])]) ∧
    (∀ (lmr : LoginOperatorRequest) (w : Value),
      exchangeResults (eventsSince h (getLoginOperatorResponse d lmr h).2) = [.ok w] →
      (∀ e, Except.error e ∉
        signerResults (eventsSince h (getLoginOperatorResponse d lmr h).2)) →
      ∃ t, (getLoginOperatorResponse d lmr h).1 = .ok ⟨t⟩ ∧
        signerCalls (eventsSince h (getLoginOperatorResponse d lmr h).2) = [(w, "", [])]) ∧
    (∀ w : Value,
      exchangeResults (eventsSince h (getLoginOauth2AuthResponse d h).2) = [.ok w] →
      (∀ e, Except.error e ∉ signerResults (eventsSince h (getLoginOauth2AuthResponse d h).2)) →
      ∃ t, (getLoginOauth2AuthResponse d h).1 = .ok ⟨t⟩ ∧
        signerCalls (eventsSince h (getLoginOauth2AuthResponse d h).2) = [(w, "", [])]) := by
  refine ⟨?_, ?_, ?_⟩
  · intro lr v w hx hp hs
    rcases getLoginResponse_shape d lr h with
      ⟨_, hr⟩ | ⟨_, _, hr⟩ | ⟨_, _, _, hr⟩ | ⟨_, _, _, _, hr⟩ | ⟨_, _, _, _, _, _, hr⟩ |
      ⟨_, _, _, _, _, _, hr⟩ | ⟨_, _, _, _, _, _, _, hr⟩ | ⟨_, _, _, _, _, _, _, hr⟩
    all_goals
      rw [hr] at hx hp hs ⊢
      simp [exchangeResults, policyResults, signerCalls, signerResults, actionsOf] at hx hp hs ⊢
    all_goals simp [hx, hp]
  · intro lmr w hx hs
    rcases getLoginOperatorResponse_shape d lmr h with
      ⟨_, hr⟩ | ⟨_, _, hr⟩ | ⟨_, _, _, hr⟩ | ⟨_, _, _, hr⟩
    all_goals
      rw [hr] at hx hs ⊢
      simp [exchangeResults, signerCalls, signerResults] at hx hs ⊢
    all_goals simp [hx]
  · intro w hx hs
    rcases getLoginOauth2AuthResponse_shape d h with
      ⟨_, hr⟩ | ⟨_, _, hr⟩ | ⟨_, _, _, hr⟩ | ⟨_, _, _, hr⟩
    all_goals
      rw [hr] at hx hs ⊢
      simp [exchangeResults, signerCalls, signerResults] at hx hs ⊢
    all_goals simp [hx]

/-- Witness for claim C5: the direct login in `noPolicyDeps`, the two token
logins in `sampleDeps`. -/
theorem no_policy_gives_empty_actions_witness :
    (exchangeResults (eventsSince [] (getLoginResponse noPolicyDeps ⟨"AK", "SK"⟩ []).2) =
        [.ok sampleValue, .ok sampleValue] ∧
      policyResults (eventsSince [] (getLoginResponse noPolicyDeps ⟨"AK", "SK"⟩ []).2) =
        [(none, none)] ∧
      signerResults (eventsSince [] (getLoginResponse noPolicyDeps ⟨"AK", "SK"⟩ []).2) =
        [.ok "session"] ∧
      ∃ t, (getLoginResponse noPolicyDeps ⟨"AK", "SK"⟩ []).1 = .ok ⟨t⟩ ∧
        signerCalls (eventsSince [] (getLoginResponse noPolicyDeps ⟨"AK", "SK"⟩ []).2) =
          [(sampleValue, "AK", [])]) ∧
    (exchangeResults (eventsSince [] (getLoginOperatorResponse sampleDeps ⟨"jwt"⟩ []).2) =
        [.ok sampleValue] ∧
      signerResults (eventsSince [] (getLoginOperatorResponse sampleDeps ⟨"jwt"⟩ []).2) =
        [.ok "session"] ∧
      ∃ t, (getLoginOperatorResponse sampleDeps ⟨"jwt"⟩ []).1 = .ok ⟨t⟩ ∧
        signerCalls (eventsSince [] (getLoginOperatorResponse sampleDeps ⟨"jwt"⟩ []).2) =
          [(sampleValue, "", [])]) ∧
    (exchangeResults (eventsSince [] (getLoginOauth2AuthResponse sampleDeps []).2) =
        [.ok sampleValue] ∧
      signerResults (eventsSince [] (getLoginOauth2AuthResponse sampleDeps []).2) =
        [.ok "session"] ∧
      ∃ t, (getLoginOauth2AuthResponse sampleDeps []).1 = .ok ⟨t⟩ ∧
        signerCalls (eventsSince [] (getLoginOauth2AuthResponse sampleDeps []).2) =
          [(sampleValue, "", [])]) :=
  ⟨⟨by decide, by decide, by decide,
      (no_policy_gives_empty_actions noPolicyDeps []).1 ⟨"AK", "SK"⟩ sampleValue sampleValue
        (by decide) (by decide)
        (fun e he => by
          rw [show signerResults
              (eventsSince [] (getLoginResponse noPolicyDeps ⟨"AK", "SK"⟩ []).2) =
              [.ok "session"] from by decide] at he
          simp at he)⟩,
    ⟨by decide, by decide,
      (no_policy_gives_empty_actions sampleDeps []).2.1 ⟨"jwt"⟩ sampleValue (by decide)
        (fun e he => by
          rw [show signerResults
              (eventsSince [] (getLoginOperatorResponse sampleDeps ⟨"jwt"⟩ []).2) =
              [.ok "session"] from by decide] at he
          simp at he)⟩,
    ⟨by decide, by decide,
      (no_policy_gives_empty_actions sampleDeps []).2.2 sampleValue (by decide)
        (fun e he => by
          rw [show signerResults
              (eventsSince [] (getLoginOauth2AuthResponse sampleDeps []).2) =
              [.ok "session"] from by decide] at he
          simp at he)⟩⟩

/-- Claim C8: if the session signer fails in a run (so the exchange before it
succeeded), `login` returns `errInvalidCredentials`, and each of the three entry
points returns no session and the invalid-credentials error
`prepareError(errInvalidCredentials, nil, errInvalidCredentials)`: the class an
exchange failure gets, with the signer's own error nowhere in it. -/
theorem signer_failure_is_invalid_credentials (d : Deps) (h : Trace) (e : GoError) :
    (∀ c : ConsoleCredentials,
      Except.error e ∈ signerResults (eventsSince h (login d c h).2) →
      (login d c h).1 = .error d.errInvalidCredentials) ∧
    (∀ lr : LoginRequest,
      Except.error e ∈ signerResults (eventsSince h (getLoginResponse d lr h).2) →
      (getLoginResponse d lr h).1 =
        .error (invalidCredentialsError d d.errInvalidCredentials)) ∧
    (∀ lmr : LoginOperatorRequest,
      Except.error e ∈ signerResults (eventsSince h (getLoginOperatorResponse d lmr h).2) →
      (getLoginOperatorResponse d lmr h).1 =
        .error (invalidCredentialsError d d.errInvalidCredentials)) ∧
    (Except.error e ∈ signerResults (eventsSince h (getLoginOauth2AuthResponse d h).2) →
      (getLoginOauth2AuthResponse d h).1 =
        .error (invalidCredentialsError d d.errInvalidCredentials)) := by
  refine ⟨?_, ?_, ?_, ?_⟩
  · intro c hx
    rcases login_shape d c h with ⟨_, hr⟩ | ⟨_, _, hr⟩ | ⟨_, _, hr⟩
    all_goals rw [hr] at hx ⊢
    all_goals simp [signerResults] at hx
  · intro lr hx
    rcases getLoginResponse_shape d lr h with
      ⟨_, hr⟩ | ⟨_, _, hr⟩ | ⟨_, _, _, hr⟩ | ⟨_, _, _, _, hr⟩ | ⟨_, _, _, _, _, _, hr⟩ |
      ⟨_, _, _, _, _, _, hr⟩ | ⟨_, _, _, _, _, _, _, hr⟩ | ⟨_, _, _, _, _, _, _, hr⟩
    all_goals rw [hr] at hx ⊢
    all_goals simp [signerResults] at hx
  · intro lmr hx
    rcases getLoginOperatorResponse_shape d lmr h with
      ⟨_, hr⟩ | ⟨_, _, hr⟩ | ⟨_, _, _, hr⟩ | ⟨_, _, _, hr⟩
    all_goals rw [hr] at hx ⊢
    all_goals simp [signerResults] at hx
  · intro hx
    rcases getLoginOauth2AuthResponse_shape d h with
      ⟨_, hr⟩ | ⟨_, _, hr⟩ | ⟨_, _, _, hr⟩ | ⟨_, _, _, hr⟩
    all_goals rw [hr] at hx ⊢
    all_goals simp [signerResults] at hx

/-- Witness for claim C8, in `signerFailDeps`. -/
theorem signer_failure_is_invalid_credentials_witness :
    (Except.error ⟨"cipher failure"⟩ ∈
        signerResults (eventsSince [] (login signerFailDeps ⟨⟨1⟩, "AK", []⟩ []).2) ∧
      (login signerFailDeps ⟨⟨1⟩, "AK", []⟩ []).1 =
        .error signerFailDeps.errInvalidCredentials) ∧
    (Except.error ⟨"cipher failure"⟩ ∈
        signerResults (eventsSince [] (getLoginResponse signerFailDeps ⟨"AK", "SK"⟩ []).2) ∧
      (getLoginResponse signerFailDeps ⟨"AK", "SK"⟩ []).1 =
        .error (invalidCredentialsError signerFailDeps signerFailDeps.errInvalidCredentials)) ∧
    (Except.error ⟨"cipher failure"⟩ ∈
        signerResults (eventsSince [] (getLoginOperatorResponse signerFailDeps ⟨"jwt"⟩ []).2) ∧
      (getLoginOperatorResponse signerFailDeps ⟨"jwt"⟩ []).1 =
        .error (invalidCredentialsError signerFailDeps signerFailDeps.errInvalidCredentials)) ∧
    (Except.error ⟨"cipher failure"⟩ ∈
        signerResults (eventsSince [] (getLoginOauth2AuthResponse signerFailDeps []).2) ∧
      (getLoginOauth2AuthResponse signerFailDeps []).1 =
        .error (invalidCredentialsError signerFailDeps signerFailDeps.errInvalidCredentials)) :=
  ⟨⟨by decide,
      (signer_failure_is_invalid_credentials signerFailDeps [] ⟨"cipher failure"⟩).1
        ⟨⟨1⟩, "AK", []⟩ (by decide)⟩,
    ⟨by decide,
      (signer_failure_is_invalid_credentials signerFailDeps [] ⟨"cipher failure"⟩).2.1
        ⟨"AK", "SK"⟩ (by decide)⟩,
    ⟨by decide,
      (signer_failure_is_invalid_credentials signerFailDeps [] ⟨"cipher failure"⟩).2.2.1
        ⟨"jwt"⟩ (by decide)⟩,
    ⟨by decide,
      (signer_failure_is_invalid_credentials signerFailDeps [] ⟨"cipher failure"⟩).2.2.2
        (by decide)⟩⟩

/-- In a direct login whose two exchange calls succeed, the second with `w`, the
parser has answered without error and the session signer is called exactly once,
with the credentials `w`, the access key of the request as identity, and the
actions derived from the parser's answer. -/
theorem direct_login_signer_call (d : Deps) (lr : LoginRequest) (h : Trace) (v w : Value)
    (hx : exchangeResults (eventsSince h (getLoginResponse d lr h).2) = [.ok v, .ok w]) :
    ∃ po, policyResults (eventsSince h (getLoginResponse d lr h).2) = [(po, none)] ∧
      signerCalls (eventsSince h (getLoginResponse d lr h).2) =
        [(w, lr.AccessKey, actionsOf d po)] := by
  rcases getLoginResponse_shape d lr h with
    ⟨_, hr⟩ | ⟨_, _, hr⟩ | ⟨_, _, _, hr⟩ | ⟨_, _, _, _, hr⟩ | ⟨_, _, _, _, _, _, hr⟩ |
    ⟨_, _, _, _, _, _, hr⟩ | ⟨c, v', m, ai, po, w', e, hr⟩ | ⟨c, v', m, ai, po, w', t, hr⟩
  all_goals rw [hr] at hx ⊢
  all_goals simp [exchangeResults, policyResults, signerCalls] at hx ⊢
  all_goals exact hx.2

/-- In a direct login in which the parser answered without error and no exchange
call failed, both exchange calls were made and succeeded. -/
theorem direct_login_exchanges_after_policy (d : Deps) (lr : LoginRequest) (h : Trace)
    (po : Option Policy)
    (hp : policyResults (eventsSince h (getLoginResponse d lr h).2) = [(po, none)])
    (hx : ∀ e, Except.error e ∉ exchangeResults (eventsSince h (getLoginResponse d lr h).2)) :
    ∃ v w, exchangeResults (eventsSince h (getLoginResponse d lr h).2) = [.ok v, .ok w] := by
  rcases getLoginResponse_shape d lr h with
    ⟨_, hr⟩ | ⟨_, _, hr⟩ | ⟨_, _, _, hr⟩ | ⟨_, _, _, _, hr⟩ | ⟨_, _, _, _, _, _, hr⟩ |
    ⟨_, _, _, _, _, _, hr⟩ | ⟨_, _, _, _, _, _, _, hr⟩ | ⟨_, _, _, _, _, _, _, hr⟩
  all_goals rw [hr] at hp hx ⊢
  all_goals simp [exchangeResults, policyResults] at hp hx ⊢

/-- In a direct login that returns a session, both exchange calls succeeded. -/
theorem direct_login_exchanges_of_session (d : Deps) (lr : LoginRequest) (h : Trace)
    (r : LoginResponse) (hs : (getLoginResponse d lr h).1 = .ok r) :
    ∃ v w, exchangeResults (eventsSince h (getLoginResponse d lr h).2) = [.ok v, .ok w] := by
  rcases getLoginResponse_shape d lr h with
    ⟨_, hr⟩ | ⟨_, _, hr⟩ | ⟨_, _, _, hr⟩ | ⟨_, _, _, _, hr⟩ | ⟨_, _, _, _, _, _, hr⟩ |
    ⟨_, _, _, _, _, _, hr⟩ | ⟨_, _, _, _, _, _, _, hr⟩ | ⟨_, _, _, _, _, _, _, hr⟩
  all_goals rw [hr] at hs ⊢
  all_goals simp [exchangeResults] at hs ⊢

/-- Claim C9: in a direct login with access key `a` and secret key `s₁`, the
exchange constructor is called once, with exactly `s₁`, whatever `a` is. Every
call of the session signer carries exactly `a` as identity, whatever `s₁` is,
and the signer is really called: once the parser has answered without error and
no exchange call has failed, and in every run that returns a session, the signer
is called exactly once, with the credentials of the second exchange, the
identity `a` and the actions of the policy. A second direct login with the same
access key and another secret key `s₂` that obtains the same temporary
credentials and the same policy hands the signer the same arguments: the same
list of signer calls in general, and, when the first run returns a session, the
same single call with identity `a` in both runs. -/
theorem direct_login_separates_secret_and_identity (d : Deps) (a s₁ s₂ : String)
    (h₁ h₂ : Trace) :
    constructorSecrets (eventsSince h₁ (getLoginResponse d ⟨a, s₁⟩ h₁).2) = [s₁] ∧
    (∀ x ∈ signerCalls (eventsSince h₁ (getLoginResponse d ⟨a, s₁⟩ h₁).2), x.2.1 = a) ∧
    (∀ po : Option Policy,
      policyResults (eventsSince h₁ (getLoginResponse d ⟨a, s₁⟩ h₁).2) = [(po, none)] →
      (∀ e, Except.error e ∉
        exchangeResults (eventsSince h₁ (getLoginResponse d ⟨a, s₁⟩ h₁).2)) →
      ∃ v w, exchangeResults (eventsSince h₁ (getLoginResponse d ⟨a, s₁⟩ h₁).2) =
          [.ok v, .ok w] ∧
        signerCalls (eventsSince h₁ (getLoginResponse d ⟨a, s₁⟩ h₁).2) =
          [(w, a, actionsOf d po)]) ∧
    (∀ r : LoginResponse, (getLoginResponse d ⟨a, s₁⟩ h₁).1 = .ok r →
      ∃ w po, signerCalls (eventsSince h₁ (getLoginResponse d ⟨a, s₁⟩ h₁).2) =
        [(w, a, actionsOf d po)]) ∧
    (exchangeResults (eventsSince h₁ (getLoginResponse d ⟨a, s₁⟩ h₁).2) =
        exchangeResults (eventsSince h₂ (getLoginResponse d ⟨a, s₂⟩ h₂).2) →
      policyResults (eventsSince h₁ (getLoginResponse d ⟨a, s₁⟩ h₁).2) =
        policyResults (eventsSince h₂ (getLoginResponse d ⟨a, s₂⟩ h₂).2) →
      signerCalls (eventsSince h₁ (getLoginResponse d ⟨a, s₁⟩ h₁).2) =
        signerCalls (eventsSince h₂ (getLoginResponse d ⟨a, s₂⟩ h₂).2)) ∧
    (∀ r : LoginResponse, (getLoginResponse d ⟨a, s₁⟩ h₁).1 = .ok r →
      exchangeResults (eventsSince h₁ (getLoginResponse d ⟨a, s₁⟩ h₁).2) =
        exchangeResults (eventsSince h₂ (getLoginResponse d ⟨a, s₂⟩ h₂).2) →
      policyResults (eventsSince h₁ (getLoginResponse d ⟨a, s₁⟩ h₁).2) =
        policyResults (eventsSince h₂ (getLoginResponse d ⟨a, s₂⟩ h₂).2) →
      ∃ w po, signerCalls (eventsSince h₁ (getLoginResponse d ⟨a, s₁⟩ h₁).2) =
          [(w, a, actionsOf d po)] ∧
        signerCalls (eventsSince h₂ (getLoginResponse d ⟨a, s₂⟩ h₂).2) =
          [(w, a, actionsOf d po)]) := by
  refine ⟨?_, ?_, ?_, ?_, ?_, ?_⟩
  · rcases getLoginResponse_shape d ⟨a, s₁⟩ h₁ with
      ⟨_, hr⟩ | ⟨_, _, hr⟩ | ⟨_, _, _, hr⟩ | ⟨_, _, _, _, hr⟩ | ⟨_, _, _, _, _, _, hr⟩ |
      ⟨_, _, _, _, _, _, hr⟩ | ⟨_, _, _, _, _, _, _, hr⟩ | ⟨_, _, _, _, _, _, _, hr⟩
    all_goals
      rw [hr]
      simp [constructorSecrets]
  · intro x hx
    rcases getLoginResponse_shape d ⟨a, s₁⟩ h₁ with
      ⟨_, hr⟩ | ⟨_, _, hr⟩ | ⟨_, _, _, hr⟩ | ⟨_, _, _, _, hr⟩ | ⟨_, _, _, _, _, _, hr⟩ |
      ⟨_, _, _, _, _, _, hr⟩ | ⟨_, _, _, _, _, _, _, hr⟩ | ⟨_, _, _, _, _, _, _, hr⟩
    all_goals
      rw [hr] at hx
      simp [signerCalls] at hx
    all_goals simp [hx]
  · intro po hp hx
    obtain ⟨v, w, hvw⟩ := direct_login_exchanges_after_policy d ⟨a, s₁⟩ h₁ po hp hx
    obtain ⟨po', hp', hs⟩ := direct_login_signer_call d ⟨a, s₁⟩ h₁ v w hvw
    rw [hp] at hp'
    simp at hp'
    subst hp'
    exact ⟨v, w, hvw, hs⟩
  · intro r hr
    obtain ⟨v, w, hvw⟩ := direct_login_exchanges_of_session d ⟨a, s₁⟩ h₁ r hr
    obtain ⟨po, -, hs⟩ := direct_login_signer_call d ⟨a, s₁⟩ h₁ v w hvw
    exact ⟨w, po, hs⟩
  · intro hx hp
    rcases getLoginResponse_shape d ⟨a, s₁⟩ h₁ with
      ⟨_, hr⟩ | ⟨_, _, hr⟩ | ⟨_, _, _, hr⟩ | ⟨_, _, _, _, hr⟩ | ⟨_, _, _, _, _, _, hr⟩ |
      ⟨_, _, _, _, _, _, hr⟩ | ⟨_, _, _, _, _, _, _, hr⟩ | ⟨_, _, _, _, _, _, _, hr⟩
    all_goals
      rcases getLoginResponse_shape d ⟨a, s₂⟩ h₂ with
        ⟨_, hq⟩ | ⟨_, _, hq⟩ | ⟨_, _, _, hq⟩ | ⟨_, _, _, _, hq⟩ | ⟨_, _, _, _, _, _, hq⟩ |
        ⟨_, _, _, _, _, _, hq⟩ | ⟨_, _, _, _, _, _, _, hq⟩ | ⟨_, _, _, _, _, _, _, hq⟩
    all_goals rw [hr, hq] at hx hp ⊢
    all_goals simp [exchangeResults, policyResults, signerCalls] at hx hp ⊢
    all_goals simp [hx, hp]
  · intro r hr hx hp
    obtain ⟨v, w, hvw⟩ := direct_login_exchanges_of_session d ⟨a, s₁⟩ h₁ r hr
    obtain ⟨po, hp₁, hs₁⟩ := direct_login_signer_call d ⟨a, s₁⟩ h₁ v w hvw
    obtain ⟨po', hp₂, hs₂⟩ := direct_login_signer_call d ⟨a, s₂⟩ h₂ v w (hx ▸ hvw)
    rw [hp₁, hp₂] at hp
    simp at hp
    subst hp
    exact ⟨w, po, hs₁, hs₂⟩

/-- Witness for claim C9: two direct logins in `sampleDeps` with the access key
`"AK"`, the first with secret `"SK1"`, the second, after it, with secret `"SK2"`.
The first returns a session; each run calls the signer once, with the identity
`"AK"`. -/
theorem direct_login_separates_secret_and_identity_witness :
    (getLoginResponse sampleDeps ⟨"AK", "SK1"⟩ []).1 = .ok ⟨"session"⟩ ∧
    policyResults (eventsSince [] (getLoginResponse sampleDeps ⟨"AK", "SK1"⟩ []).2) =
      [(some ⟨1⟩, none)] ∧
    exchangeResults (eventsSince [] (getLoginResponse sampleDeps ⟨"AK", "SK1"⟩ []).2) =
      exchangeResults
        (eventsSince (getLoginResponse sampleDeps ⟨"AK", "SK1"⟩ []).2
          (getLoginResponse sampleDeps ⟨"AK", "SK2"⟩
            (getLoginResponse sampleDeps ⟨"AK", "SK1"⟩ []).2).2) ∧
    policyResults (eventsSince [] (getLoginResponse sampleDeps ⟨"AK", "SK1"⟩ []).2) =
      policyResults
        (eventsSince (getLoginResponse sampleDeps ⟨"AK", "SK1"⟩ []).2
          (getLoginResponse sampleDeps ⟨"AK", "SK2"⟩
            (getLoginResponse sampleDeps ⟨"AK", "SK1"⟩ []).2).2) ∧
    constructorSecrets (eventsSince [] (getLoginResponse sampleDeps ⟨"AK", "SK1"⟩ []).2) =
      ["SK1"] ∧
    signerCalls (eventsSince [] (getLoginResponse sampleDeps ⟨"AK", "SK1"⟩ []).2) =
      [(sampleValue, "AK", ["admin:*"])] ∧
    signerCalls
        (eventsSince (getLoginResponse sampleDeps ⟨"AK", "SK1"⟩ []).2
          (getLoginResponse sampleDeps ⟨"AK", "SK2"⟩
            (getLoginResponse sampleDeps ⟨"AK", "SK1"⟩ []).2).2) =
      [(sampleValue, "AK", ["admin:*"])] ∧
    (∃ v w, exchangeResults (eventsSince [] (getLoginResponse sampleDeps ⟨"AK", "SK1"⟩ []).2) =
        [.ok v, .ok w] ∧
      signerCalls (eventsSince [] (getLoginResponse sampleDeps ⟨"AK", "SK1"⟩ []).2) =
        [(w, "AK", actionsOf sampleDeps (some ⟨1⟩))]) ∧
    (∃ w po, signerCalls (eventsSince [] (getLoginResponse sampleDeps ⟨"AK", "SK1"⟩ []).2) =
      [(w, "AK", actionsOf sampleDeps po)]) ∧
    (∃ w po, signerCalls (eventsSince [] (getLoginResponse sampleDeps ⟨"AK", "SK1"⟩ []).2) =
        [(w, "AK", actionsOf sampleDeps po)] ∧
      signerCalls
          (eventsSince (getLoginResponse sampleDeps ⟨"AK", "SK1"⟩ []).2
            (getLoginResponse sampleDeps ⟨"AK", "SK2"⟩
              (getLoginResponse sampleDeps ⟨"AK", "SK1"⟩ []).2).2) =
        [(w, "AK", actionsOf sampleDeps po)]) ∧
    signerCalls (eventsSince [] (getLoginResponse sampleDeps ⟨"AK", "SK1"⟩ []).2) =
      signerCalls
        (eventsSince (getLoginResponse sampleDeps ⟨"AK", "SK1"⟩ []).2
          (getLoginResponse sampleDeps ⟨"AK", "SK2"⟩
            (getLoginResponse sampleDeps ⟨"AK", "SK1"⟩ []).2).2) :=
  ⟨by decide, by decide, by decide, by decide,
    (direct_login_separates_secret_and_identity sampleDeps "AK" "SK1" "SK2" []
      (getLoginResponse sampleDeps ⟨"AK", "SK1"⟩ []).2).1,
    by decide, by decide,
    (direct_login_separates_secret_and_identity sampleDeps "AK" "SK1" "SK2" []
      (getLoginResponse sampleDeps ⟨"AK", "SK1"⟩ []).2).2.2.1 (some ⟨1⟩) (by decide)
      (fun e he => by
        rw [show exchangeResults
            (eventsSince [] (getLoginResponse sampleDeps ⟨"AK", "SK1"⟩ []).2) =
            [.ok sampleValue, .ok sampleValue] from by decide] at he
        simp at he),
    (direct_login_separates_secret_and_identity sampleDeps "AK" "SK1" "SK2" []
      (getLoginResponse sampleDeps ⟨"AK", "SK1"⟩ []).2).2.2.2.1 ⟨"session"⟩ (by decide),
    (direct_login_separates_secret_and_identity sampleDeps "AK" "SK1" "SK2" []
      (getLoginResponse sampleDeps ⟨"AK", "SK1"⟩ []).2).2.2.2.2.2 ⟨"session"⟩ (by decide)
      (by decide) (by decide),
    (direct_login_separates_secret_and_identity sampleDeps "AK" "SK1" "SK2" []
      (getLoginResponse sampleDeps ⟨"AK", "SK1"⟩ []).2).2.2.2.2.1 (by decide) (by decide)⟩

/-- Claim C6: with the identity provider disabled, `getLoginDetailsResponse`
returns, without error, the service-account strategy with an empty redirect URL;
the only thing the run does is create its own context, so it calls neither
`NewOauth2ProviderClient` nor `GenerateLoginURL` nor any other collaborator. -/
theorem login_details_without_idp (d : Deps) (h : Trace) (hd : d.IsIDPEnabled = false) :
    (getLoginDetailsResponse d h).1 =
      .ok ⟨LoginDetailsLoginStrategy.ServiceDashAccount, ""⟩ ∧
    eventsSince h (getLoginDetailsResponse d h).2 =
      [Call.WithTimeout Context.Background 20] ∧
    idpCalls (eventsSince h (getLoginDetailsResponse d h).2) = [] := by
  simp [getLoginDetailsResponse, hd, idpCalls]

/-- Witness for claim C6, in `sampleDeps`, where the identity provider is
disabled. -/
theorem login_details_without_idp_witness :
    sampleDeps.IsIDPEnabled = false ∧
    (getLoginDetailsResponse sampleDeps []).1 =
      .ok ⟨LoginDetailsLoginStrategy.ServiceDashAccount, ""⟩ ∧
    eventsSince [] (getLoginDetailsResponse sampleDeps []).2 =
      [Call.WithTimeout Context.Background 20] ∧
    idpCalls (eventsSince [] (getLoginDetailsResponse sampleDeps []).2) = [] :=
  ⟨rfl, login_details_without_idp sampleDeps [] rfl⟩

/-- Claim C7: with the identity provider enabled, `getLoginDetailsResponse`
tries to build the provider client. If that succeeds it returns the redirect
strategy with the URL `GenerateLoginURL` returned, which is non-empty when
`GenerateLoginURL` keeps its contract. If it fails with `e` it returns the error
`prepareError(e)`, no login details, and generates no URL. In no case does it
return the service-account strategy. -/
theorem login_details_with_idp (d : Deps) (h : Trace) (hd : d.IsIDPEnabled = true) :
    (∀ c : Provider,
      providerResults (eventsSince h (getLoginDetailsResponse d h).2) = [.ok c] →
      ∃ url, (getLoginDetailsResponse d h).1 =
          .ok ⟨LoginDetailsLoginStrategy.Redirect, url⟩ ∧
        loginURLs (eventsSince h (getLoginDetailsResponse d h).2) = [url] ∧
        (GenerateLoginURLNonEmpty d → url ≠ "")) ∧
    (∀ e : GoError,
      providerResults (eventsSince h (getLoginDetailsResponse d h).2) = [.error e] →
      (getLoginDetailsResponse d h).1 = .error (d.prepareError [some e]) ∧
        loginURLs (eventsSince h (getLoginDetailsResponse d h).2) = []) ∧
    (∃ r, providerResults (eventsSince h (getLoginDetailsResponse d h).2) = [r]) ∧
    (∀ url : String, (getLoginDetailsResponse d h).1 ≠
      .ok ⟨LoginDetailsLoginStrategy.ServiceDashAccount, url⟩) := by
  unfold getLoginDetailsResponse
  simp only [hd, if_true]
  cases hc : d.NewOauth2ProviderClient (h ++ [Call.WithTimeout Context.Background 20])
      (Context.WithTimeout Context.Background 20) with
  | error e =>
    simp [providerResults, loginURLs]
  | ok c =>
    simp only [providerResults, loginURLs, GenerateLoginURLNonEmpty]
    simp
    intro hne
    exact hne _ _

/-- Witness for claim C7: `idpDeps` builds the provider client, `idpFailDeps`
does not. -/
theorem login_details_with_idp_witness :
    (idpDeps.IsIDPEnabled = true ∧
      providerResults (eventsSince [] (getLoginDetailsResponse idpDeps []).2) = [.ok ⟨1⟩] ∧
      GenerateLoginURLNonEmpty idpDeps ∧
      ∃ url, (getLoginDetailsResponse idpDeps []).1 =
          .ok ⟨LoginDetailsLoginStrategy.Redirect, url⟩ ∧
        loginURLs (eventsSince [] (getLoginDetailsResponse idpDeps []).2) = [url] ∧
        url ≠ "") ∧
    (idpFailDeps.IsIDPEnabled = true ∧
      providerResults (eventsSince [] (getLoginDetailsResponse idpFailDeps []).2) =
        [.error ⟨"idp unreachable"⟩] ∧
      (getLoginDetailsResponse idpFailDeps []).1 =
        .error (idpFailDeps.prepareError [some ⟨"idp unreachable"⟩]) ∧
      loginURLs (eventsSince [] (getLoginDetailsResponse idpFailDeps []).2) = []) := by
  have hne : GenerateLoginURLNonEmpty idpDeps := by
    intro t ip
    show "https://idp.example/authorize?state=abc" ≠ ""
    decide
  refine ⟨⟨rfl, by decide, hne, ?_⟩, ⟨rfl, by decide, ?_⟩⟩
  · obtain ⟨url, h1, h2, h3⟩ := (login_details_with_idp idpDeps [] rfl).1 ⟨1⟩ (by decide)
    exact ⟨url, h1, h2, h3 hne⟩
  · exact (login_details_with_idp idpFailDeps [] rfl).2.1 ⟨"idp unreachable"⟩ (by decide)

/-- Counterexample to claim C10 as stated: in `sampleDeps` the operator-token
login and the identity-provider login succeed without establishing any deadline,
and their exchange call and signer call run under no context; the direct login
establishes one 20-second deadline, but of its four pipeline steps (exchange,
account-info fetch, exchange, signing) only the account-info fetch runs under it. -/
theorem deadline_does_not_span_pipeline :
    (getLoginOperatorResponse sampleDeps ⟨"jwt"⟩ []).1 = .ok ⟨"session"⟩ ∧
    deadlines (eventsSince [] (getLoginOperatorResponse sampleDeps ⟨"jwt"⟩ []).2) = [] ∧
    ((eventsSince [] (getLoginOperatorResponse sampleDeps ⟨"jwt"⟩ []).2).filter
      Call.isPipelineStep).map Call.ctx = [none, none] ∧
    (getLoginOauth2AuthResponse sampleDeps []).1 = .ok ⟨"session"⟩ ∧
    deadlines (eventsSince [] (getLoginOauth2AuthResponse sampleDeps []).2) = [] ∧
    ((eventsSince [] (getLoginOauth2AuthResponse sampleDeps []).2).filter
      Call.isPipelineStep).map Call.ctx = [none, none] ∧
    (getLoginResponse sampleDeps ⟨"AK", "SK"⟩ []).1 = .ok ⟨"session"⟩ ∧
    deadlines (eventsSince [] (getLoginResponse sampleDeps ⟨"AK", "SK"⟩ []).2) =
      [Context.WithTimeout Context.Background 20] ∧
    ((eventsSince [] (getLoginResponse sampleDeps ⟨"AK", "SK"⟩ []).2).filter
      Call.isPipelineStep).map Call.ctx =
      [none, some (Context.WithTimeout Context.Background 20), none, none] := by
  decide

/-- Claim C10, amended: the direct login establishes exactly one deadline, a
context with a 20-second timeout, and every call of the run that takes a context
is an account-info fetch under that context; the exchange calls and the session
signer take no context. The operator-token login and the identity-provider login
establish no deadline and hand no context to any call. -/
theorem deadline_by_entry_point (d : Deps) (h : Trace) :
    (∀ lr : LoginRequest,
      deadlines (eventsSince h (getLoginResponse d lr h).2) =
        [Context.WithTimeout Context.Background 20] ∧
      (∀ c ∈ eventsSince h (getLoginResponse d lr h).2, c.ctx ≠ none →
        ∃ cl r, c = Call.AccountInfo (Context.WithTimeout Context.Background 20) cl r) ∧
      (∀ c ∈ eventsSince h (getLoginResponse d lr h).2,
        (∃ recv r, c = Call.Get recv r) ∨
          (∃ v a acts r, c = Call.NewEncryptedTokenForClient v a acts r) →
        c.ctx = none)) ∧
    (∀ lmr : LoginOperatorRequest,
      deadlines (eventsSince h (getLoginOperatorResponse d lmr h).2) = [] ∧
      ∀ c ∈ eventsSince h (getLoginOperatorResponse d lmr h).2, c.ctx = none) ∧
    (deadlines (eventsSince h (getLoginOauth2AuthResponse d h).2) = [] ∧
      ∀ c ∈ eventsSince h (getLoginOauth2AuthResponse d h).2, c.ctx = none) := by
  refine ⟨?_, ?_, ?_⟩
  · intro lr
    refine ⟨?_, ?_, ?_⟩
    · rcases getLoginResponse_shape d lr h with
        ⟨_, hr⟩ | ⟨_, _, hr⟩ | ⟨_, _, _, hr⟩ | ⟨_, _, _, _, hr⟩ | ⟨_, _, _, _, _, _, hr⟩ |
        ⟨_, _, _, _, _, _, hr⟩ | ⟨_, _, _, _, _, _, _, hr⟩ | ⟨_, _, _, _, _, _, _, hr⟩
      all_goals
        rw [hr]
        simp [deadlines]
    · rcases getLoginResponse_shape d lr h with
        ⟨_, hr⟩ | ⟨_, _, hr⟩ | ⟨_, _, _, hr⟩ | ⟨_, _, _, _, hr⟩ | ⟨_, _, _, _, _, _, hr⟩ |
        ⟨_, _, _, _, _, _, hr⟩ | ⟨_, _, _, _, _, _, _, hr⟩ | ⟨_, _, _, _, _, _, _, hr⟩
      all_goals
        rw [hr]
        simp [Call.ctx]
    · rintro c - (⟨recv, r, rfl⟩ | ⟨v, a, acts, r, rfl⟩) <;> rfl
  · intro lmr
    rcases getLoginOperatorResponse_shape d lmr h with
      ⟨_, hr⟩ | ⟨_, _, hr⟩ | ⟨_, _, _, hr⟩ | ⟨_, _, _, hr⟩
    all_goals
      rw [hr]
      simp [deadlines, Call.ctx]
  · rcases getLoginOauth2AuthResponse_shape d h with
      ⟨_, hr⟩ | ⟨_, _, hr⟩ | ⟨_, _, _, hr⟩ | ⟨_, _, _, hr⟩
    all_goals
      rw [hr]
      simp [deadlines, Call.ctx]

/-- Witness for claim C10, amended, in `sampleDeps`: the account-info fetch of
the direct login runs under the 20-second context, its second exchange call
under none, and the exchange call of each token login under none. -/
theorem deadline_by_entry_point_witness :
    (deadlines (eventsSince [] (getLoginResponse sampleDeps ⟨"AK", "SK"⟩ []).2) =
        [Context.WithTimeout Context.Background 20] ∧
      Call.AccountInfo (Context.WithTimeout Context.Background 20) ⟨⟨1⟩⟩ (.ok ⟨[123, 125]⟩) ∈
        eventsSince [] (getLoginResponse sampleDeps ⟨"AK", "SK"⟩ []).2 ∧
      (∃ cl r, Call.AccountInfo (Context.WithTimeout Context.Background 20) ⟨⟨1⟩⟩
          (.ok ⟨[123, 125]⟩) =
        Call.AccountInfo (Context.WithTimeout Context.Background 20) cl r) ∧
      Call.Get ⟨⟨1⟩, "AK", ["admin:*"]⟩ (.ok sampleValue) ∈
        eventsSince [] (getLoginResponse sampleDeps ⟨"AK", "SK"⟩ []).2 ∧
      (Call.Get ⟨⟨1⟩, "AK", ["admin:*"]⟩ (.ok sampleValue)).ctx = none) ∧
    (deadlines (eventsSince [] (getLoginOperatorResponse sampleDeps ⟨"jwt"⟩ []).2) = [] ∧
      Call.Get ⟨⟨1⟩, "", []⟩ (.ok sampleValue) ∈
        eventsSince [] (getLoginOperatorResponse sampleDeps ⟨"jwt"⟩ []).2 ∧
      (Call.Get ⟨⟨1⟩, "", []⟩ (.ok sampleValue)).ctx = none) ∧
    (deadlines (eventsSince [] (getLoginOauth2AuthResponse sampleDeps []).2) = [] ∧
      Call.Get ⟨⟨1⟩, "", []⟩ (.ok sampleValue) ∈
        eventsSince [] (getLoginOauth2AuthResponse sampleDeps []).2 ∧
      (Call.Get ⟨⟨1⟩, "", []⟩ (.ok sampleValue)).ctx = none) :=
  ⟨⟨((deadline_by_entry_point sampleDeps []).1 ⟨"AK", "SK"⟩).1,
      by decide,
      ((deadline_by_entry_point sampleDeps []).1 ⟨"AK", "SK"⟩).2.1 _ (by decide) (by decide),
      by decide,
      ((deadline_by_entry_point sampleDeps []).1 ⟨"AK", "SK"⟩).2.2 _ (by decide)
        (Or.inl ⟨_, _, rfl⟩)⟩,
    ⟨((deadline_by_entry_point sampleDeps []).2.1 ⟨"jwt"⟩).1,
      by decide,
      ((deadline_by_entry_point sampleDeps []).2.1 ⟨"jwt"⟩).2 _ (by decide)⟩,
    ⟨(deadline_by_entry_point sampleDeps []).2.2.1,
      by decide,
      (deadline_by_entry_point sampleDeps []).2.2.2 _ (by decide)⟩⟩

end OperatorLogin
